import Mathlib

/-
Shallow embedding of the collateralized-borrowing program
(programs/chainlink_solana_demo/src/lib.rs).

Modelling conventions:
* u64 values are represented as Nat together with explicit bounds
  checks against u64Max = 2^64 - 1, mirroring Rust checked arithmetic.
* A Rust panic (slice index out of bounds, `Option::unwrap` on `None`)
  is modelled by the whole computation returning `none`.
* An instruction returns `Option (Except ErrorCode Obligation)`:
  `none` is an abort (panic), `some (.error e)` a returned `Err(e)`,
  `some (.ok ob)` success with the new obligation state.  The Solana
  runtime rolls back all account writes when an instruction returns an
  error or aborts, so the observable post-state of a failed call is the
  pre-state; `observable` encodes exactly that runtime rule.
* The external Pyth oracle is a parameter `oracle : Nat -> Option Nat`
  mapping a feed id to a price in the program's scale (`get_pyth_price`
  succeeding), `none` meaning the oracle call failed and the static
  fallback price is used, as in the source.
* Pyth feed ids ([u8; 32], produced by get_feed_id_from_hex) are opaque
  to all of the logic under study and are modelled as plain Nat.
-/

namespace ChainlinkDemo

/-- Largest value of a Rust u64. -/
def u64Max : Nat := 2 ^ 64 - 1

/-- Rust u64::checked_add. -/
def checked_add (a b : Nat) : Option Nat :=
  if a + b ≤ u64Max then some (a + b) else none

/-- Rust u64::checked_mul. -/
def checked_mul (a b : Nat) : Option Nat :=
  if a * b ≤ u64Max then some (a * b) else none

/-- Rust u64::checked_div (none exactly on a zero divisor). -/
def checked_div (a b : Nat) : Option Nat :=
  if b = 0 then none else some (a / b)

/-- AssetInfo from the source: id, fallback price, decimals, pyth feed id. -/
structure AssetInfo where
  id : Nat
  price : Nat
  decimals : Nat
  pyth_feed_id : Nat
deriving DecidableEq

/-- PairRiskParam from the source. -/
structure PairRiskParam where
  asset_id_a : Nat
  asset_id_b : Nat
  risk_level : Nat
deriving DecidableEq

/-- Position from the source. -/
structure Position where
  asset_id : Nat
  amount : Nat
deriving DecidableEq

/-- AssetRegistry from the source (the authority pubkey plays no role in
the logic under study and is omitted). -/
structure AssetRegistry where
  assets : List AssetInfo
  risk_params : List PairRiskParam
deriving DecidableEq

/-- Obligation from the source (owner pubkey omitted, see AssetRegistry). -/
structure Obligation where
  deposits : List Position
  borrows : List Position
  health_score : Nat
deriving DecidableEq

/-- The error codes of the program that the embedded logic can produce. -/
inductive ErrorCode where
  | AssetAlreadyExists
  | AssetNotFound
  | RiskParamAlreadyExists
  | DepositNotFound
  | BorrowNotFound
  | InsufficientDeposit
  | InsufficientBorrow
  | MathOverflow
  | InsufficientCollateral
deriving DecidableEq

instance {ε α : Type} [DecidableEq ε] [DecidableEq α] : DecidableEq (Except ε α) :=
  fun x y =>
  match x, y with
  | Except.ok a, Except.ok b =>
    if h : a = b then isTrue (by rw [h])
    else isFalse (by intro hc; cases hc; exact h rfl)
  | Except.error a, Except.error b =>
    if h : a = b then isTrue (by rw [h])
    else isFalse (by intro hc; cases hc; exact h rfl)
  | Except.ok _, Except.error _ => isFalse (by intro hc; cases hc)
  | Except.error _, Except.ok _ => isFalse (by intro hc; cases hc)

/-- External price oracle: feed id to price, none on any oracle failure. -/
abbrev OracleFn := Nat → Option Nat

/-- The price used by perform_health_check for one asset: the Pyth price
when the oracle call succeeds, otherwise the registry fallback price. -/
def resolve_price (oracle : OracleFn) (info : AssetInfo) : Nat :=
  match oracle info.pyth_feed_id with
  | some p => p
  | none => info.price

/-- scale_amount from the source: amount * 10^decimals, 0 on overflow. -/
def scale_amount (amount decimals : Nat) : Nat :=
  (checked_mul amount (10 ^ decimals)).getD 0

/-- calculate_value from the source: scaled amount times price divided by
10^decimals, with checked arithmetic defaulting to 0. -/
def calculate_value (amount price decimals : Nat) : Nat :=
  ((checked_mul (scale_amount amount decimals) price).bind
    (fun v => checked_div v (10 ^ decimals))).getD 0

/-- The deposit/borrow loops of perform_health_check: positional indexing
`assets[pos.asset_id as usize]` (panic when out of bounds) and
`total.checked_add(value).unwrap()` (panic on overflow). -/
def sum_position_values (oracle : OracleFn) (assets : List AssetInfo) :
    List Position → Nat → Option Nat
  | [], total => some total
  | pos :: rest, total =>
    match assets.get? pos.asset_id with
    | none => none
    | some info =>
      match checked_add total
          (calculate_value pos.amount (resolve_price oracle info) info.decimals) with
      | none => none
      | some t => sum_position_values oracle assets rest t

/-- Health score computation of perform_health_check: u64::MAX when the
total borrow value is zero, else
`total_deposit_value.checked_mul(1000).unwrap().checked_div(tbv).unwrap()`. -/
def health_score_of (tdv tbv : Nat) : Option Nat :=
  if tbv = 0 then some u64Max
  else (checked_mul tdv 1000).bind (fun m => checked_div m tbv)

/-- perform_health_check from the source: sums deposit and borrow values,
computes the score, caches it on the obligation, and errs with
InsufficientCollateral below 1000. -/
def perform_health_check (oracle : OracleFn) (reg : AssetRegistry)
    (ob : Obligation) : Option (Except ErrorCode Obligation) :=
  (sum_position_values oracle reg.assets ob.deposits 0).bind fun tdv =>
    (sum_position_values oracle reg.assets ob.borrows 0).bind fun tbv =>
      (health_score_of tdv tbv).bind fun hs =>
        if hs < 1000 then some (Except.error ErrorCode.InsufficientCollateral)
        else some (Except.ok { ob with health_score := hs })

/-- Registration check used by add_deposit/add_borrow:
`registry.assets.iter().any(|a| a.id == asset_id)`. -/
def asset_registered (reg : AssetRegistry) (aid : Nat) : Bool :=
  reg.assets.any (fun a => a.id == aid)

/-- The add-or-update step shared by add_deposit and add_borrow: the first
position with the given asset id gets `checked_add` (MathOverflow on
overflow), otherwise a fresh position is pushed at the end. -/
def add_position : List Position → Nat → Nat → Except ErrorCode (List Position)
  | [], aid, amt => Except.ok [⟨aid, amt⟩]
  | p :: rest, aid, amt =>
    if p.asset_id = aid then
      match checked_add p.amount amt with
      | none => Except.error ErrorCode.MathOverflow
      | some s => Except.ok (⟨p.asset_id, s⟩ :: rest)
    else
      match add_position rest aid amt with
      | Except.error e => Except.error e
      | Except.ok r => Except.ok (p :: r)

/-- In-place amount update of the first position matching the asset id,
as done through the `iter_mut().find` reference in the source. -/
def set_first_amount : List Position → Nat → Nat → List Position
  | [], _, _ => []
  | p :: rest, aid, amt =>
    if p.asset_id = aid then ⟨p.asset_id, amt⟩ :: rest
    else p :: set_first_amount rest aid amt

/-- The removal step shared by remove_deposit and remove_borrow (amount
already known nonzero): find the position, check sufficiency, subtract,
and prune via `retain` when the amount reaches zero. -/
def remove_position (ps : List Position) (aid amt : Nat)
    (notFound insufficient : ErrorCode) : Except ErrorCode (List Position) :=
  match ps.find? (fun p => p.asset_id == aid) with
  | none => Except.error notFound
  | some pos =>
    if pos.amount < amt then Except.error insufficient
    else if pos.amount - amt = 0 then
      Except.ok ((set_first_amount ps aid (pos.amount - amt)).filter
        (fun p => p.asset_id != aid))
    else Except.ok (set_first_amount ps aid (pos.amount - amt))

/-- add_deposit instruction from the source. -/
def add_deposit (oracle : OracleFn) (reg : AssetRegistry) (ob : Obligation)
    (aid amt : Nat) : Option (Except ErrorCode Obligation) :=
  if asset_registered reg aid then
    match add_position ob.deposits aid amt with
    | Except.error e => some (Except.error e)
    | Except.ok ds => perform_health_check oracle reg { ob with deposits := ds }
  else some (Except.error ErrorCode.AssetNotFound)

/-- add_borrow instruction from the source. -/
def add_borrow (oracle : OracleFn) (reg : AssetRegistry) (ob : Obligation)
    (aid amt : Nat) : Option (Except ErrorCode Obligation) :=
  if asset_registered reg aid then
    match add_position ob.borrows aid amt with
    | Except.error e => some (Except.error e)
    | Except.ok bs => perform_health_check oracle reg { ob with borrows := bs }
  else some (Except.error ErrorCode.AssetNotFound)

/-- remove_deposit instruction from the source (amount 0 returns Ok before
anything else happens). -/
def remove_deposit (oracle : OracleFn) (reg : AssetRegistry) (ob : Obligation)
    (aid amt : Nat) : Option (Except ErrorCode Obligation) :=
  if amt = 0 then some (Except.ok ob)
  else
    match remove_position ob.deposits aid amt ErrorCode.DepositNotFound
        ErrorCode.InsufficientDeposit with
    | Except.error e => some (Except.error e)
    | Except.ok ds => perform_health_check oracle reg { ob with deposits := ds }

/-- remove_borrow instruction from the source. -/
def remove_borrow (oracle : OracleFn) (reg : AssetRegistry) (ob : Obligation)
    (aid amt : Nat) : Option (Except ErrorCode Obligation) :=
  if amt = 0 then some (Except.ok ob)
  else
    match remove_position ob.borrows aid amt ErrorCode.BorrowNotFound
        ErrorCode.InsufficientBorrow with
    | Except.error e => some (Except.error e)
    | Except.ok bs => perform_health_check oracle reg { ob with borrows := bs }

/-- add_asset instruction from the source: only a duplicate-id check, then
push (the feed id is taken already hex-decoded). -/
def add_asset (reg : AssetRegistry) (id price decimals feed : Nat) :
    Except ErrorCode AssetRegistry :=
  if reg.assets.any (fun a => a.id == id) then
    Except.error ErrorCode.AssetAlreadyExists
  else Except.ok { reg with assets := reg.assets ++ [⟨id, price, decimals, feed⟩] }

/-- add_risk_param instruction from the source: both assets must exist and
the unordered pair must be new. -/
def add_risk_param (reg : AssetRegistry) (a b level : Nat) :
    Except ErrorCode AssetRegistry :=
  if reg.assets.any (fun x => x.id == a) = false then
    Except.error ErrorCode.AssetNotFound
  else if reg.assets.any (fun x => x.id == b) = false then
    Except.error ErrorCode.AssetNotFound
  else if reg.risk_params.any (fun p =>
      (p.asset_id_a == a && p.asset_id_b == b)
        || (p.asset_id_a == b && p.asset_id_b == a)) then
    Except.error ErrorCode.RiskParamAlreadyExists
  else Except.ok { reg with risk_params := reg.risk_params ++ [⟨a, b, level⟩] }

/-- The four obligation-mutating instructions, indexed for uniform
statements about the mutation guard. -/
inductive OpKind where
  | addDep
  | addBor
  | remDep
  | remBor
deriving DecidableEq

/-- Dispatch an obligation-mutating instruction. -/
def modifyOp : OpKind → OracleFn → AssetRegistry → Obligation → Nat → Nat →
    Option (Except ErrorCode Obligation)
  | OpKind.addDep => add_deposit
  | OpKind.addBor => add_borrow
  | OpKind.remDep => remove_deposit
  | OpKind.remBor => remove_borrow

/-- Observable account state after an instruction, per Solana runtime
semantics: only a successfully returning instruction commits its account
writes; an error return or an abort rolls everything back. -/
def observable (pre : Obligation) : Option (Except ErrorCode Obligation) → Obligation
  | some (Except.ok ob) => ob
  | _ => pre

/-- Modelled from the spec (section 4.4, step 4): the pairwise risk level
for a deposit/borrow asset pair, looked up in either order and defaulting
to 50 when no pair is configured. -/
def spec_risk_level (reg : AssetRegistry) (a b : Nat) : Nat :=
  match reg.risk_params.find? (fun p =>
      (p.asset_id_a == a && p.asset_id_b == b)
        || (p.asset_id_a == b && p.asset_id_b == a)) with
  | some p => p.risk_level
  | none => 50

/-- Modelled from the spec (section 4.4, step 1): a position's value with
the asset looked up in the registry by its id field. -/
def spec_position_value (oracle : OracleFn) (reg : AssetRegistry)
    (pos : Position) : Nat :=
  match reg.assets.find? (fun x => x.id == pos.asset_id) with
  | some info => calculate_value pos.amount (resolve_price oracle info) info.decimals
  | none => 0

/-- Modelled from the spec (section 4.4, steps 4 and 5): the pairwise
risk-weighted health score, for comparison against the score the code
computes. -/
def spec_score_x1000 (oracle : OracleFn) (reg : AssetRegistry)
    (deposits borrows : List Position) : Nat :=
  let tbv := (borrows.map (spec_position_value oracle reg)).sum
  if tbv = 0 then u64Max
  else
    let weighted := (deposits.map (fun d =>
      let contrib := (borrows.map (fun b =>
        spec_position_value oracle reg b * 100 / tbv *
          spec_risk_level reg d.asset_id b.asset_id)).sum
      spec_position_value oracle reg d * contrib / 100)).sum
    weighted * 1000 / tbv / 100

/-- A concrete oracle on which every Pyth fetch fails, so that health
checks use the registry fallback prices. -/
def oracle_none : OracleFn := fun _ => none

/-- Registry fixture for the spec scenario with the asset ids renamed to 0
and 1 so that they coincide with their list positions. -/
def regC1 : AssetRegistry := ⟨[⟨0, 100, 0, 0⟩, ⟨1, 50, 0, 0⟩], [⟨0, 1, 20⟩]⟩

/-- Obligation fixture for the spec scenario over regC1. -/
def obC1 : Obligation := ⟨[⟨0, 10⟩], [⟨1, 15⟩], 0⟩

/-- Registry fixture holding the full 20 assets, ids 0 through 19. -/
def reg20 : AssetRegistry := ⟨(List.range 20).map (fun i => ⟨i, 1, 0, 0⟩), []⟩

/-- A position value computed by calculate_value always fits in a u64:
each checked step either stays within the bound or collapses to 0. -/
theorem calculate_value_le (a p d : Nat) : calculate_value a p d ≤ u64Max := by
  unfold calculate_value
  cases hm : checked_mul (scale_amount a d) p with
  | none => simp
  | some v =>
    have hv : v ≤ u64Max := by
      unfold checked_mul at hm
      by_cases hle : scale_amount a d * p ≤ u64Max
      · rw [if_pos hle] at hm
        cases hm
        exact hle
      · rw [if_neg hle] at hm
        exact Option.noConfusion hm
    have h10 : (10 : Nat) ^ d ≠ 0 := pow_ne_zero _ (by norm_num)
    simp only [Option.some_bind, checked_div, if_neg h10, Option.getD_some]
    exact le_trans (Nat.div_le_self _ _) hv

/-- A successful health check changes only the cached health score: the
deposit and borrow lists pass through untouched. -/
theorem hc_ok_fields {oracle : OracleFn} {reg : AssetRegistry} {ob ob' : Obligation}
    (h : perform_health_check oracle reg ob = some (Except.ok ob')) :
    ob'.deposits = ob.deposits ∧ ob'.borrows = ob.borrows := by
  unfold perform_health_check at h
  cases hd : sum_position_values oracle reg.assets ob.deposits 0 with
  | none => rw [hd] at h; exact Option.noConfusion h
  | some tdv =>
    rw [hd] at h
    simp only [Option.some_bind] at h
    cases hb : sum_position_values oracle reg.assets ob.borrows 0 with
    | none => rw [hb] at h; exact Option.noConfusion h
    | some tbv =>
      rw [hb] at h
      simp only [Option.some_bind] at h
      cases hh : health_score_of tdv tbv with
      | none => rw [hh] at h; exact Option.noConfusion h
      | some hs =>
        rw [hh] at h
        simp only [Option.some_bind] at h
        by_cases hlt : hs < 1000
        · rw [if_pos hlt] at h
          simp at h
        · rw [if_neg hlt] at h
          simp only [Option.some.injEq, Except.ok.injEq] at h
          subst h
          exact ⟨rfl, rfl⟩

/-- Computation rule for remove_position when no position matches. -/
theorem remove_position_not_found (ps : List Position) (aid n : Nat)
    (e1 e2 : ErrorCode) (hf : ps.find? (fun p => p.asset_id == aid) = none) :
    remove_position ps aid n e1 e2 = Except.error e1 := by
  unfold remove_position
  rw [hf]

/-- Computation rule for remove_position when a position is found. -/
theorem remove_position_found (ps : List Position) (aid n : Nat)
    (e1 e2 : ErrorCode) (pos : Position)
    (hf : ps.find? (fun p => p.asset_id == aid) = some pos) :
    remove_position ps aid n e1 e2 =
      (if pos.amount < n then Except.error e2
       else if pos.amount - n = 0 then
         Except.ok ((set_first_amount ps aid (pos.amount - n)).filter
           (fun p => p.asset_id != aid))
       else Except.ok (set_first_amount ps aid (pos.amount - n))) := by
  unfold remove_position
  rw [hf]

/-- remove_position distributes over a non-matching head position. -/
theorem remove_position_cons (p : Position) (r : List Position) (aid n : Nat)
    (e1 e2 : ErrorCode) (h : p.asset_id ≠ aid) :
    remove_position (p :: r) aid n e1 e2 =
      (remove_position r aid n e1 e2).map (fun l => p :: l) := by
  have hpb : ((fun q : Position => q.asset_id == aid) p) = false := by
    simp [h]
  have hfind : List.find? (fun q => q.asset_id == aid) (p :: r) =
      List.find? (fun q => q.asset_id == aid) r := by
    rw [List.find?_cons_of_neg _ (by simp [hpb])]
  have hsf : ∀ m, set_first_amount (p :: r) aid m =
      p :: set_first_amount r aid m := by
    intro m
    simp [set_first_amount, h]
  cases hf : List.find? (fun q => q.asset_id == aid) r with
  | none =>
    rw [remove_position_not_found _ _ _ _ _ (hfind.trans hf),
      remove_position_not_found _ _ _ _ _ hf]
    rfl
  | some pos =>
    rw [remove_position_found _ _ _ _ _ pos (hfind.trans hf),
      remove_position_found _ _ _ _ _ pos hf]
    by_cases hlt : pos.amount < n
    · rw [if_pos hlt, if_pos hlt]
      rfl
    · rw [if_neg hlt, if_neg hlt]
      by_cases hz : pos.amount - n = 0
      · rw [if_pos hz, if_pos hz, hsf]
        simp [List.filter_cons, h, Except.map]
      · rw [if_neg hz, if_neg hz, hsf]
        rfl

/-- Adding amount n to a position list and then removing n from the same
asset undoes the addition exactly, provided n is positive and any
pre-existing position for that asset has a positive amount. -/
theorem add_remove_position (aid n : Nat) (e1 e2 : ErrorCode) :
    ∀ ps ds : List Position,
      (∀ p ∈ ps, p.asset_id = aid → 0 < p.amount) →
      add_position ps aid n = Except.ok ds →
      remove_position ds aid n e1 e2 = Except.ok ps := by
  intro ps
  induction ps with
  | nil =>
    intro ds hpos hadd
    simp only [add_position, Except.ok.injEq] at hadd
    subst hadd
    rw [remove_position_found _ _ _ _ _ ⟨aid, n⟩ (by simp [List.find?])]
    rw [if_neg (Nat.lt_irrefl n), if_pos (Nat.sub_self n)]
    simp [set_first_amount, Nat.sub_self, List.filter]
  | cons p rest ih =>
    intro ds hpos hadd
    obtain ⟨pa, pam⟩ := p
    by_cases hp : pa = aid
    · subst hp
      simp only [add_position, if_true] at hadd
      cases hca : checked_add pam n with
      | none =>
        rw [hca] at hadd
        exact Except.noConfusion hadd
      | some s =>
        rw [hca] at hadd
        simp only [Except.ok.injEq] at hadd
        subst hadd
        have hs : s = pam + n := by
          unfold checked_add at hca
          by_cases hle : pam + n ≤ u64Max
          · rw [if_pos hle] at hca
            exact (Option.some.injEq _ _ ▸ hca).symm
          · rw [if_neg hle] at hca
            exact Option.noConfusion hca
        have hpa : 0 < pam := hpos ⟨pa, pam⟩ (List.mem_cons_self _ _) rfl
        rw [remove_position_found _ _ _ _ _ ⟨pa, s⟩ (by simp [List.find?])]
        rw [if_neg (by omega : ¬ s < n), if_neg (by omega : ¬ s - n = 0)]
        have hsn : s - n = pam := by omega
        rw [hsn]
        simp [set_first_amount]
    · simp only [add_position, if_neg hp] at hadd
      cases hrec : add_position rest aid n with
      | error e =>
        rw [hrec] at hadd
        exact Except.noConfusion hadd
      | ok r =>
        rw [hrec] at hadd
        simp only [Except.ok.injEq] at hadd
        subst hadd
        have ihr := ih r
          (fun q hq hqa => hpos q (List.mem_cons_of_mem _ hq) hqa) hrec
        rw [remove_position_cons _ _ _ _ _ _ hp, ihr]
        rfl

/-- When the first position matching the asset id would overflow on the
added amount, add_position reports MathOverflow. -/
theorem add_position_overflow (ps : List Position) (aid amt : Nat) (p : Position)
    (hf : ps.find? (fun q => q.asset_id == aid) = some p)
    (hov : u64Max < p.amount + amt) :
    add_position ps aid amt = Except.error ErrorCode.MathOverflow := by
  induction ps with
  | nil => simp [List.find?] at hf
  | cons q rest ih =>
    by_cases hq : q.asset_id = aid
    · rw [List.find?_cons_of_pos _ (by simp [hq])] at hf
      simp only [Option.some.injEq] at hf
      subst hf
      have hno : checked_add q.amount amt = none := by
        unfold checked_add
        rw [if_neg (Nat.not_le.mpr hov)]
      simp [add_position, hq, hno]
    · rw [List.find?_cons_of_neg _ (by simp [hq])] at hf
      simp [add_position, hq, ih hf]

/-- Claim C1, counterexample.  On a registry where the asset ids coincide
with list positions (so the positional lookup cannot abort), the health
check computes the plain loan-to-value score 1333 — not the pairwise
risk-weighted score, which on the same input is 266 — and the add_borrow
of the spec scenario therefore succeeds instead of failing.  On the spec
literal scenario (asset ids 1 and 2) the call aborts on an out-of-bounds
registry index, so no score at all is produced. -/
theorem C1_counterexample :
    perform_health_check oracle_none regC1 obC1 =
      some (Except.ok ⟨[⟨0, 10⟩], [⟨1, 15⟩], 1333⟩) ∧
    spec_score_x1000 oracle_none regC1 obC1.deposits obC1.borrows = 266 ∧
    add_borrow oracle_none regC1 ⟨[⟨0, 10⟩], [], 0⟩ 1 15 =
      some (Except.ok ⟨[⟨0, 10⟩], [⟨1, 15⟩], 1333⟩) ∧
    add_borrow oracle_none ⟨[⟨1, 100, 0, 0⟩, ⟨2, 50, 0, 0⟩], [⟨1, 2, 20⟩]⟩
      ⟨[⟨1, 10⟩], [], 0⟩ 2 15 = none := by
  refine ⟨by decide, by decide, by decide, by decide⟩

/-- Claim C1, amended.  Whenever the deposit and borrow sums and the score
computation succeed, perform_health_check returns InsufficientCollateral
exactly below a score of 1000 and otherwise caches the score, the score is
u64::MAX for zero total borrow value and otherwise the plain ratio
total_deposit_value * 1000 / total_borrow_value, and the registry risk
parameters never influence the outcome. -/
theorem C1_health_score_formula (oracle : OracleFn) (reg : AssetRegistry)
    (ob : Obligation) (tdv tbv hs : Nat)
    (hd : sum_position_values oracle reg.assets ob.deposits 0 = some tdv)
    (hb : sum_position_values oracle reg.assets ob.borrows 0 = some tbv)
    (hh : health_score_of tdv tbv = some hs) :
    perform_health_check oracle reg ob =
      (if hs < 1000 then some (Except.error ErrorCode.InsufficientCollateral)
       else some (Except.ok { ob with health_score := hs })) ∧
    (tbv = 0 → hs = u64Max) ∧
    (tbv ≠ 0 → hs = tdv * 1000 / tbv) ∧
    (∀ rps : List PairRiskParam,
      perform_health_check oracle ⟨reg.assets, rps⟩ ob =
        perform_health_check oracle reg ob) := by
  refine ⟨?_, ?_, ?_, fun rps => rfl⟩
  · unfold perform_health_check
    rw [hd]
    simp only [Option.some_bind]
    rw [hb]
    simp only [Option.some_bind]
    rw [hh]
    simp only [Option.some_bind]
  · intro h0
    subst h0
    unfold health_score_of at hh
    rw [if_pos rfl] at hh
    exact (Option.some.injEq _ _ ▸ hh).symm
  · intro h0
    unfold health_score_of at hh
    rw [if_neg h0] at hh
    cases hm : checked_mul tdv 1000 with
    | none => rw [hm] at hh; exact Option.noConfusion hh
    | some m =>
      rw [hm] at hh
      simp only [Option.some_bind, checked_div, if_neg h0, Option.some.injEq] at hh
      have hm' : m = tdv * 1000 := by
        unfold checked_mul at hm
        by_cases hle : tdv * 1000 ≤ u64Max
        · rw [if_pos hle] at hm
          cases hm
          rfl
        · rw [if_neg hle] at hm
          exact Option.noConfusion hm
      rw [← hh, hm']

/-- Claim C1, witness for the amended theorem at the renamed spec
scenario: total deposit value 1000, total borrow value 750, score 1333. -/
theorem C1_health_score_formula_witness :
    perform_health_check oracle_none regC1 obC1 =
      (if (1333 : Nat) < 1000 then some (Except.error ErrorCode.InsufficientCollateral)
       else some (Except.ok { obC1 with health_score := 1333 })) :=
  (C1_health_score_formula oracle_none regC1 obC1 1000 750 1333 (by decide)
    (by decide) (by decide)).1

/-- Claim C2.  Whenever one of the four obligation-mutating instructions
fails the health gate with InsufficientCollateral, the observable
obligation after the call — deposits, borrows and cached health score —
is exactly the pre-call obligation, because the runtime only commits
account writes of successfully returning instructions. -/
theorem C2_rollback_on_unhealthy (k : OpKind) (oracle : OracleFn)
    (reg : AssetRegistry) (ob : Obligation) (aid amt : Nat)
    (h : modifyOp k oracle reg ob aid amt =
      some (Except.error ErrorCode.InsufficientCollateral)) :
    observable ob (modifyOp k oracle reg ob aid amt) = ob := by
  rw [h]
  rfl

/-- Claim C2, witness: an add_borrow against an empty deposit list fails
the health gate and the observable obligation is the pre-call one. -/
theorem C2_rollback_on_unhealthy_witness :
    observable ⟨[], [], 0⟩
      (modifyOp OpKind.addBor oracle_none ⟨[⟨0, 100, 0, 0⟩], []⟩ ⟨[], [], 0⟩ 0 1) =
      ⟨[], [], 0⟩ :=
  C2_rollback_on_unhealthy OpKind.addBor oracle_none ⟨[⟨0, 100, 0, 0⟩], []⟩
    ⟨[], [], 0⟩ 0 1 (by decide)

/-- Claim C3.  The health check indexes the registry asset vector
positionally with the position's asset_id: with a single registered asset
whose id is 5, a deposit on asset 5 makes the check abort out of bounds;
and with assets listed as id 1 then id 0, a deposit on asset 0 is valued
at the price of the id-1 entry sitting at list position 0 (score 71428
from price 100), while an id-keyed lookup would have used price 7, whose
per-position value is 70. -/
theorem C3_positional_indexing :
    perform_health_check oracle_none ⟨[⟨5, 100, 0, 0⟩], []⟩ ⟨[⟨5, 1⟩], [], 0⟩ = none ∧
    perform_health_check oracle_none ⟨[⟨1, 100, 0, 0⟩, ⟨0, 7, 0, 0⟩], []⟩
      ⟨[⟨0, 10⟩], [⟨1, 2⟩], 0⟩ = some (Except.ok ⟨[⟨0, 10⟩], [⟨1, 2⟩], 71428⟩) ∧
    spec_position_value oracle_none ⟨[⟨1, 100, 0, 0⟩, ⟨0, 7, 0, 0⟩], []⟩ ⟨0, 10⟩ = 70 := by
  refine ⟨by decide, by decide, by decide⟩

/-- Claim C10.  remove_deposit and remove_borrow with amount 0 return
success before touching anything: for every registry, oracle, obligation
and asset id — registered or not, with or without a position — the
returned obligation is the input one, lists and cached score included. -/
theorem C10_zero_amount_noop (oracle : OracleFn) (reg : AssetRegistry)
    (ob : Obligation) (aid : Nat) :
    remove_deposit oracle reg ob aid 0 = some (Except.ok ob) ∧
    remove_borrow oracle reg ob aid 0 = some (Except.ok ob) :=
  ⟨rfl, rfl⟩

/-- Claim C4, counterexample.  Two deposits whose per-position values are
each u64::MAX (amount 1 at price u64::MAX, in-bounds positional lookup)
overflow the total-deposit accumulation, whose checked_add().unwrap()
aborts the health check: the accumulation does not saturate, and inputs
can make the health check abort on arithmetic. -/
theorem C4_counterexample :
    perform_health_check oracle_none ⟨[⟨0, u64Max, 0, 0⟩, ⟨1, u64Max, 0, 0⟩], []⟩
      ⟨[⟨0, 1⟩, ⟨1, 1⟩], [], 0⟩ = none := by decide

/-- Claim C4, amended.  Per-position value computation is total and
bounded (overflow inside calculate_value collapses to 0, never a panic),
but the accumulation into the deposit total uses checked_add with unwrap:
whenever two deposit values exceed u64::MAX in sum, the health check
aborts instead of saturating. -/
theorem C4_value_total_but_accumulation_panics :
    (∀ a p d, calculate_value a p d ≤ u64Max) ∧
    (∀ (oracle : OracleFn) (reg : AssetRegistry) (ob : Obligation)
      (p1 p2 : Position) (i1 i2 : AssetInfo),
      ob.deposits = [p1, p2] →
      reg.assets.get? p1.asset_id = some i1 →
      reg.assets.get? p2.asset_id = some i2 →
      u64Max < calculate_value p1.amount (resolve_price oracle i1) i1.decimals +
        calculate_value p2.amount (resolve_price oracle i2) i2.decimals →
      perform_health_check oracle reg ob = none) := by
  refine ⟨calculate_value_le, ?_⟩
  intro oracle reg ob p1 p2 i1 i2 hds h1 h2 hov
  have hv1 : checked_add 0
      (calculate_value p1.amount (resolve_price oracle i1) i1.decimals) =
      some (calculate_value p1.amount (resolve_price oracle i1) i1.decimals) := by
    unfold checked_add
    rw [if_pos (by simpa using calculate_value_le p1.amount (resolve_price oracle i1) i1.decimals)]
    rw [Nat.zero_add]
  have hv2 : checked_add
      (calculate_value p1.amount (resolve_price oracle i1) i1.decimals)
      (calculate_value p2.amount (resolve_price oracle i2) i2.decimals) = none := by
    unfold checked_add
    rw [if_neg (Nat.not_le.mpr hov)]
  have hsum : sum_position_values oracle reg.assets [p1, p2] 0 = none := by
    simp only [sum_position_values, h1, hv1, h2, hv2]
  unfold perform_health_check
  rw [hds, hsum]
  rfl

/-- Claim C4, witness for the amended theorem: value 1 * u64::MAX is in
bounds, and with two such deposits the health check aborts. -/
theorem C4_value_total_but_accumulation_panics_witness :
    calculate_value 1 u64Max 0 ≤ u64Max ∧
    perform_health_check oracle_none ⟨[⟨0, u64Max, 0, 0⟩, ⟨1, u64Max, 0, 0⟩], []⟩
      ⟨[⟨0, 1⟩, ⟨1, 1⟩], [], 0⟩ = none := by
  constructor
  · exact C4_value_total_but_accumulation_panics.1 1 u64Max 0
  · exact C4_value_total_but_accumulation_panics.2 oracle_none
      ⟨[⟨0, u64Max, 0, 0⟩, ⟨1, u64Max, 0, 0⟩], []⟩ ⟨[⟨0, 1⟩, ⟨1, 1⟩], [], 0⟩
      ⟨0, 1⟩ ⟨1, 1⟩ ⟨0, u64Max, 0, 0⟩ ⟨1, u64Max, 0, 0⟩ rfl (by decide) (by decide)
      (by decide)

/-- Claim C5, counterexample.  add_asset has no capacity check: on a
registry already holding 20 assets (ids 0 through 19), adding the distinct
id 20 succeeds and the asset list reaches 21 entries. -/
theorem C5_counterexample :
    add_asset reg20 20 1 0 0 =
      Except.ok (⟨reg20.assets ++ [⟨20, 1, 0, 0⟩], []⟩ : AssetRegistry) ∧
    (reg20.assets ++ ([⟨20, 1, 0, 0⟩] : List AssetInfo)).length = 21 := by
  refine ⟨by decide, by decide⟩

/-- Claim C5, amended.  add_asset enforces only id uniqueness: whenever
the id is not yet present it appends, whatever the current length of the
asset list — the 20-entry figure is an account-space sizing constant, not
an insertion-time bound. -/
theorem C5_no_capacity_check (reg : AssetRegistry) (id price decimals feed : Nat)
    (h : reg.assets.any (fun a => a.id == id) = false) :
    add_asset reg id price decimals feed =
      Except.ok { reg with assets := reg.assets ++ [⟨id, price, decimals, feed⟩] } := by
  unfold add_asset
  rw [h]
  rfl

/-- Claim C5, witness for the amended theorem: the 21st insertion on the
full fixture registry succeeds. -/
theorem C5_no_capacity_check_witness :
    add_asset reg20 20 1 0 0 =
      Except.ok { reg20 with assets := reg20.assets ++ [⟨20, 1, 0, 0⟩] } :=
  C5_no_capacity_check reg20 20 1 0 0 (by decide)

/-- Claim C9, counterexample.  An obligation with an empty borrow list is
not always reported healthy: a deposit whose asset_id has no registry
slot makes the health check abort on the out-of-bounds positional index
before the zero-borrow short-circuit is reached. -/
theorem C9_counterexample :
    perform_health_check oracle_none ⟨[], []⟩ ⟨[⟨0, 1⟩], [], 0⟩ = none := by decide

/-- Claim C9, amended.  Provided the deposit and borrow value sums
compute without aborting (in-bounds positions, no accumulator overflow),
a total borrow value of zero — in particular an empty borrow list, or
borrows all valued at zero — short-circuits to the healthy verdict with
score u64::MAX and no division is performed. -/
theorem C9_zero_borrow_value_healthy (oracle : OracleFn) (reg : AssetRegistry)
    (ob : Obligation) (tdv : Nat)
    (hd : sum_position_values oracle reg.assets ob.deposits 0 = some tdv)
    (hb : sum_position_values oracle reg.assets ob.borrows 0 = some 0) :
    perform_health_check oracle reg ob =
      some (Except.ok { ob with health_score := u64Max }) ∧ 1000 ≤ u64Max := by
  constructor
  · unfold perform_health_check
    rw [hd]
    simp only [Option.some_bind]
    rw [hb]
    simp only [Option.some_bind]
    have hh : health_score_of tdv 0 = some u64Max := by
      unfold health_score_of
      rw [if_pos rfl]
    rw [hh]
    simp only [Option.some_bind]
    rw [if_neg (by decide : ¬ u64Max < 1000)]
  · decide

/-- Claim C9, witness for the amended theorem: one valued deposit, no
borrows, verdict healthy at score u64::MAX. -/
theorem C9_zero_borrow_value_healthy_witness :
    perform_health_check oracle_none ⟨[⟨0, 5, 0, 0⟩], []⟩ ⟨[⟨0, 2⟩], [], 0⟩ =
      some (Except.ok { (⟨[⟨0, 2⟩], [], 0⟩ : Obligation) with health_score := u64Max }) ∧
    1000 ≤ u64Max :=
  C9_zero_borrow_value_healthy oracle_none ⟨[⟨0, 5, 0, 0⟩], []⟩ ⟨[⟨0, 2⟩], [], 0⟩ 10
    (by decide) (by decide)

/-- Claim C6, counterexample.  add_deposit of amount 0 on an asset with no
existing position pushes a zero-amount entry (the health check passes: no
borrows), and remove_deposit of amount 0 is an early-return no-op that
never prunes it, so the deposit list does not return to its pre-call
state even though both calls succeed. -/
theorem C6_counterexample :
    add_deposit oracle_none ⟨[⟨0, 1, 0, 0⟩], []⟩ ⟨[], [], 0⟩ 0 0 =
      some (Except.ok ⟨[⟨0, 0⟩], [], u64Max⟩) ∧
    remove_deposit oracle_none ⟨[⟨0, 1, 0, 0⟩], []⟩ ⟨[⟨0, 0⟩], [], u64Max⟩ 0 0 =
      some (Except.ok ⟨[⟨0, 0⟩], [], u64Max⟩) ∧
    ([⟨0, 0⟩] : List Position) ≠ [] := by
  refine ⟨by decide, by decide, by decide⟩

/-- Claim C6, amended.  For positive n, and provided any pre-existing
deposit position for the asset has a positive amount (the invariant every
reachable obligation satisfies), a successful add_deposit of n followed by
a successful remove_deposit of n restores the deposit list exactly,
including pruning the freshly pushed entry. -/
theorem C6_add_remove_deposit_roundtrip (oracle : OracleFn)
    (reg : AssetRegistry) (ob ob1 ob2 : Obligation) (aid n : Nat)
    (hn : 0 < n)
    (hpos : ∀ p ∈ ob.deposits, p.asset_id = aid → 0 < p.amount)
    (h1 : add_deposit oracle reg ob aid n = some (Except.ok ob1))
    (h2 : remove_deposit oracle reg ob1 aid n = some (Except.ok ob2)) :
    ob2.deposits = ob.deposits := by
  unfold add_deposit at h1
  by_cases hreg : asset_registered reg aid = true
  · rw [if_pos hreg] at h1
    cases hadd : add_position ob.deposits aid n with
    | error e =>
      rw [hadd] at h1
      simp at h1
    | ok ds =>
      rw [hadd] at h1
      have hf1 : ob1.deposits = ds := (hc_ok_fields h1).1
      unfold remove_deposit at h2
      rw [if_neg (Nat.pos_iff_ne_zero.mp hn)] at h2
      cases hrem : remove_position ob1.deposits aid n ErrorCode.DepositNotFound
          ErrorCode.InsufficientDeposit with
      | error e =>
        rw [hrem] at h2
        simp at h2
      | ok ds2 =>
        rw [hrem] at h2
        have hf2 : ob2.deposits = ds2 := (hc_ok_fields h2).1
        rw [hf1] at hrem
        have hback : remove_position ds aid n ErrorCode.DepositNotFound
            ErrorCode.InsufficientDeposit = Except.ok ob.deposits :=
          add_remove_position aid n _ _ ob.deposits ds hpos hadd
        rw [hback] at hrem
        simp only [Except.ok.injEq] at hrem
        rw [hf2, ← hrem]
  · rw [if_neg hreg] at h1
    simp at h1

/-- Claim C6, witness for the amended theorem: a fresh deposit of 1 unit
added and removed leaves the deposit list empty again. -/
theorem C6_add_remove_deposit_roundtrip_witness :
    (⟨[], [], u64Max⟩ : Obligation).deposits = (⟨[], [], 0⟩ : Obligation).deposits :=
  C6_add_remove_deposit_roundtrip oracle_none ⟨[⟨0, 1, 0, 0⟩], []⟩ ⟨[], [], 0⟩
    ⟨[⟨0, 1⟩], [], u64Max⟩ ⟨[], [], u64Max⟩ 0 1 (by decide) (by simp)
    (by decide) (by decide)

/-- Claim C7.  On a registered asset with an existing position whose
amount plus the requested amount exceeds u64::MAX, add_deposit
(respectively add_borrow) fails with MathOverflow before the health check
runs, and the observable obligation is the unchanged pre-call one. -/
theorem C7_overflow_rejected :
    (∀ (oracle : OracleFn) (reg : AssetRegistry) (ob : Obligation)
      (aid amt : Nat) (p : Position),
      asset_registered reg aid = true →
      ob.deposits.find? (fun q => q.asset_id == aid) = some p →
      u64Max < p.amount + amt →
      add_deposit oracle reg ob aid amt =
        some (Except.error ErrorCode.MathOverflow) ∧
      observable ob (add_deposit oracle reg ob aid amt) = ob) ∧
    (∀ (oracle : OracleFn) (reg : AssetRegistry) (ob : Obligation)
      (aid amt : Nat) (p : Position),
      asset_registered reg aid = true →
      ob.borrows.find? (fun q => q.asset_id == aid) = some p →
      u64Max < p.amount + amt →
      add_borrow oracle reg ob aid amt =
        some (Except.error ErrorCode.MathOverflow) ∧
      observable ob (add_borrow oracle reg ob aid amt) = ob) := by
  constructor
  · intro oracle reg ob aid amt p hreg hf hov
    have he := add_position_overflow ob.deposits aid amt p hf hov
    have hcall : add_deposit oracle reg ob aid amt =
        some (Except.error ErrorCode.MathOverflow) := by
      unfold add_deposit
      rw [if_pos hreg, he]
    exact ⟨hcall, by rw [hcall]; rfl⟩
  · intro oracle reg ob aid amt p hreg hf hov
    have he := add_position_overflow ob.borrows aid amt p hf hov
    have hcall : add_borrow oracle reg ob aid amt =
        some (Except.error ErrorCode.MathOverflow) := by
      unfold add_borrow
      rw [if_pos hreg, he]
    exact ⟨hcall, by rw [hcall]; rfl⟩

/-- Claim C7, witness: a position holding u64::MAX plus one more unit
overflows, on the deposit side and on the borrow side. -/
theorem C7_overflow_rejected_witness :
    (add_deposit oracle_none ⟨[⟨0, 1, 0, 0⟩], []⟩ ⟨[⟨0, u64Max⟩], [], 0⟩ 0 1 =
       some (Except.error ErrorCode.MathOverflow) ∧
     observable ⟨[⟨0, u64Max⟩], [], 0⟩
       (add_deposit oracle_none ⟨[⟨0, 1, 0, 0⟩], []⟩ ⟨[⟨0, u64Max⟩], [], 0⟩ 0 1) =
       ⟨[⟨0, u64Max⟩], [], 0⟩) ∧
    (add_borrow oracle_none ⟨[⟨0, 1, 0, 0⟩], []⟩ ⟨[], [⟨0, u64Max⟩], 0⟩ 0 1 =
       some (Except.error ErrorCode.MathOverflow) ∧
     observable ⟨[], [⟨0, u64Max⟩], 0⟩
       (add_borrow oracle_none ⟨[⟨0, 1, 0, 0⟩], []⟩ ⟨[], [⟨0, u64Max⟩], 0⟩ 0 1) =
       ⟨[], [⟨0, u64Max⟩], 0⟩) := by
  constructor
  · exact C7_overflow_rejected.1 oracle_none ⟨[⟨0, 1, 0, 0⟩], []⟩
      ⟨[⟨0, u64Max⟩], [], 0⟩ 0 1 ⟨0, u64Max⟩ (by decide) (by decide) (by decide)
  · exact C7_overflow_rejected.2 oracle_none ⟨[⟨0, 1, 0, 0⟩], []⟩
      ⟨[], [⟨0, u64Max⟩], 0⟩ 0 1 ⟨0, u64Max⟩ (by decide) (by decide) (by decide)

/-- Claim C8.  After add_risk_param(a, b, level) succeeds, the reversed
add_risk_param(b, a, level2) fails with RiskParamAlreadyExists: the
duplicate check matches the stored pair in either order. -/
theorem C8_risk_pair_symmetry (reg reg' : AssetRegistry) (a b l l' : Nat)
    (h : add_risk_param reg a b l = Except.ok reg') :
    add_risk_param reg' b a l' = Except.error ErrorCode.RiskParamAlreadyExists := by
  by_cases ha : reg.assets.any (fun x => x.id == a) = false
  · rw [add_risk_param, if_pos ha] at h
    exact Except.noConfusion h
  by_cases hb : reg.assets.any (fun x => x.id == b) = false
  · rw [add_risk_param, if_neg ha, if_pos hb] at h
    exact Except.noConfusion h
  by_cases hp : reg.risk_params.any (fun p =>
      (p.asset_id_a == a && p.asset_id_b == b)
        || (p.asset_id_a == b && p.asset_id_b == a)) = true
  · rw [add_risk_param, if_neg ha, if_neg hb, if_pos hp] at h
    exact Except.noConfusion h
  · rw [add_risk_param, if_neg ha, if_neg hb, if_neg hp] at h
    simp only [Except.ok.injEq] at h
    subst h
    have ha' : ¬ (reg.assets.any (fun x => x.id == b) = false) := hb
    have hb' : ¬ (reg.assets.any (fun x => x.id == a) = false) := ha
    rw [add_risk_param, if_neg ha', if_neg hb']
    rw [if_pos]
    simp [List.any_append]

/-- Claim C8, witness: pair (0,1) registered, then (1,0) rejected. -/
theorem C8_risk_pair_symmetry_witness :
    add_risk_param ⟨[⟨0, 1, 0, 0⟩, ⟨1, 1, 0, 0⟩], [⟨0, 1, 20⟩]⟩ 1 0 30 =
      Except.error ErrorCode.RiskParamAlreadyExists :=
  C8_risk_pair_symmetry ⟨[⟨0, 1, 0, 0⟩, ⟨1, 1, 0, 0⟩], []⟩
    ⟨[⟨0, 1, 0, 0⟩, ⟨1, 1, 0, 0⟩], [⟨0, 1, 20⟩]⟩ 0 1 20 30 (by decide)

end ChainlinkDemo
